import Mathlib

/-!
Shallow embedding of `task2/app.py` (a two-view feedback application:
submission pipeline with LLM enrichment and fallbacks, flat CSV store,
admin analytics/filter/export view), together with theorems settling the
specification claims about it.

Strings are modelled at the level of Unicode code points (`List Char`),
matching Python's `str` semantics for indexing, slicing and length.
-/

/-- Characters treated as whitespace by Python's `str.strip` / `str.isspace`
(ASCII whitespace, the C0 separators, NEL, and the Unicode space separators). -/
def pySpaceChars : List Char :=
  [' ', '\t', '\n', '\r', '\x0b', '\x0c',
   '\x1c', '\x1d', '\x1e', '\x1f', '\x85', '\xa0',
   ' ', ' ', ' ', ' ', ' ', ' ', ' ',
   ' ', ' ', ' ', ' ', ' ', ' ', ' ',
   ' ', ' ', '　']

/-- Python `str.isspace` on a single character. -/
def pyIsSpace (c : Char) : Bool := pySpaceChars.contains c

/-- Python `str.strip()` on a list of characters: drop leading and trailing
whitespace. -/
def pyStripL (l : List Char) : List Char :=
  ((l.dropWhile pyIsSpace).reverse.dropWhile pyIsSpace).reverse

/-- Python `str.strip()`. -/
def pyStrip (s : String) : String := String.mk (pyStripL s.data)

/-- Outcome of one outbound HTTP request to a provider, as observed by
`call_llm_text`: either `requests.post` raised (network error / timeout), or a
response arrived with a status code and, when the body parses to the expected
`choices[0].message.content` string, that string (`none` models a malformed
body, whose key lookup raises). -/
inductive ProviderResponse
  | netError
  | response (status : Nat) (content : Option String)
deriving DecidableEq, Repr

/-- Result of one `try` block around a provider request in `call_llm_text`:
`r.raise_for_status()` raises exactly for client- and server-error status
codes (`400 <= status < 600`), and a malformed body raises at
`j["choices"][0]["message"]["content"]`; any such exception makes the attempt
yield nothing. For every other status — including 2xx and an unfollowed
3xx — no exception is raised and the extracted content is used. -/
def tryRequest : ProviderResponse → Option String
  | .netError => none
  | .response status content =>
    if 400 <= status && status < 600 then none else content

/-- Embedding of `call_llm_text` (task2/app.py lines 34-68). The two booleans
model whether `OPENAI_API_KEY` / `OPENROUTER_API_KEY` are set to truthy
values; `primary` and `secondary` are the outcomes the two endpoints would
produce for this call. With no key it returns `none` without any request;
otherwise it tries the primary endpoint, on failure tries the secondary
exactly once when the OpenRouter key is present, and on success returns the
`.strip()`ed content. -/
def call_llm_text (hasOpenai hasOpenrouter : Bool)
    (primary secondary : ProviderResponse) : Option String :=
  if !(hasOpenai || hasOpenrouter) then none
  else
    match tryRequest primary with
    | some s => some (pyStrip s)
    | none =>
      if hasOpenrouter then
        match tryRequest secondary with
        | some s => some (pyStrip s)
        | none => none
      else none

/-- Embedding of `fallback_user_response` (line 71-72): the f-string contains
no placeholders, so both arguments are ignored. -/
def fallback_user_response (_rating : Int) (_review : String) : String :=
  "Thanks for your review! We appreciate your feedback."

/-- Embedding of `fallback_summary` (line 74-75):
`review[:160] + ("..." if len(review) > 160 else "")`. -/
def fallback_summary (review : String) : String :=
  String.mk (review.data.take 160) ++ (if review.data.length > 160 then "..." else "")

/-- Embedding of `fallback_actions` (line 77-78). -/
def fallback_actions (_review : String) (_rating : Int) : String :=
  "- Thank the customer\n- Investigate the issue\n- Improve service based on feedback"

/-- Embedding of `user_reply_prompt` (line 81-82). -/
def user_reply_prompt (rating : Int) (review : String) : String :=
  "Write a brief friendly response a restaurant would send to a customer who left this review (one short paragraph):\n\nRating: "
    ++ toString rating ++ "\nReview: \"" ++ review ++ "\""

/-- Embedding of `summary_prompt` (line 84-85). -/
def summary_prompt (review : String) : String :=
  "Summarize the following review in one short sentence:\n\n\"" ++ review ++ "\""

/-- Embedding of `actions_prompt` (line 87-88). -/
def actions_prompt (review : String) (rating : Int) : String :=
  "Suggest 3 concise, actionable recommendations the restaurant owner should do based on this review. Provide bullet points only.\n\nRating: "
    ++ toString rating ++ "\nReview: \"" ++ review ++ "\""

/-- One persisted submission record: the six-field row assembled at
lines 120-127 of task2/app.py. -/
structure Row where
  timestamp : String
  rating : Int
  review : String
  ai_response : String
  summary : String
  actions : String
deriving DecidableEq, Repr

/-- Outcome reported to the user by the submit handler: `st.error` on an
empty review, or `st.success` with the saved row. -/
inductive SubmitResult
  | rejected
  | saved (row : Row)
deriving DecidableEq, Repr

/-- Observable effect of one click of the Submit button: the reported result,
the stored table afterwards, and the list of prompts sent to
`call_llm_text` (empty when no enrichment was attempted). -/
structure SubmitOutput where
  result : SubmitResult
  table : List Row
  promptsIssued : List String
deriving DecidableEq, Repr

/-- Embedding of the User Dashboard submit handler (task2/app.py lines
100-128). `ts` stands for `datetime.utcnow().isoformat()`; the six
`ProviderResponse` arguments are the primary/secondary outcomes of the three
independent enrichment calls. A review that is empty after stripping is
rejected with nothing persisted and no enrichment attempted; otherwise each
`None` enrichment is replaced by its local fallback and
`save_submission` appends the assembled row to the table. -/
def submitHandler (rating : Int) (review ts : String)
    (hasOpenai hasOpenrouter : Bool)
    (replyPrimary replySecondary sumPrimary sumSecondary
      actPrimary actSecondary : ProviderResponse)
    (table : List Row) : SubmitOutput :=
  if pyStrip review = "" then
    { result := .rejected, table := table, promptsIssued := [] }
  else
    let ai_resp :=
      (call_llm_text hasOpenai hasOpenrouter replyPrimary replySecondary).getD
        (fallback_user_response rating review)
    let summary :=
      (call_llm_text hasOpenai hasOpenrouter sumPrimary sumSecondary).getD
        (fallback_summary review)
    let actions :=
      (call_llm_text hasOpenai hasOpenrouter actPrimary actSecondary).getD
        (fallback_actions review rating)
    let row : Row :=
      { timestamp := ts, rating := rating, review := review,
        ai_response := ai_resp, summary := summary, actions := actions }
    { result := .saved row, table := table ++ [row],
      promptsIssued :=
        [user_reply_prompt rating review, summary_prompt review,
         actions_prompt review rating] }

/-- Regex metacharacters of Python's `re` module. The admin search box value
is handed to `pandas.Series.str.contains`, which compiles it with
`re.compile` rather than treating it as a literal substring. -/
def regexSpecialChars : List Char :=
  ['^', '$', '*', '+', '?', '{', '}', '[', ']', '\\', '|', '(', ')']

/-- One token of a compiled pattern in the modelled regex fragment: a literal
character or the `.` wildcard. -/
inductive RTok
  | lit (c : Char)
  | dot
deriving DecidableEq, Repr

/-- Modelled `re.compile`: patterns made of literal characters and the `.`
wildcard compile to their token list; a pattern containing any other regex
metacharacter is outside the modelled fragment and is mapped to `none`
(a compile error). Within the patterns the theorems below use this is exact:
Python's `re.compile` raises `re.error` on `"("` and `"["`, and compiles a
metacharacter-free pattern to a literal-and-wildcard match. -/
def parseRegex : List Char → Option (List RTok)
  | [] => some []
  | c :: cs =>
    if c = '.' then (parseRegex cs).map (RTok.dot :: ·)
    else if regexSpecialChars.contains c then none
    else (parseRegex cs).map (RTok.lit c :: ·)

/-- Match of one pattern token against one character, under `re.IGNORECASE`
(the `case=False` flag of `str.contains`); `.` matches any character except a
newline (`re.DOTALL` is off). -/
def tokMatches : RTok → Char → Bool
  | .lit a, c => a.toLower = c.toLower
  | .dot, c => c ≠ '\n'

/-- Match of a token list against the start of a string. -/
def matchHere : List RTok → List Char → Bool
  | [], _ => true
  | _ :: _, [] => false
  | t :: ts, c :: cs => tokMatches t c && matchHere ts cs

/-- Modelled `re.search`: does the token list match at some position of the
string? -/
def reSearch (toks : List RTok) : List Char → Bool
  | [] => matchHere toks []
  | c :: cs => matchHere toks (c :: cs) || reSearch toks cs

/-- Embedding of the Admin Dashboard filter (task2/app.py lines 159-164):
first keep the rows whose rating is in the multiselect value, then, when the
search box is non-blank, keep the rows whose review
`str.contains(q, case=False, na=False)`. The result is `none` when
`re.compile` raises on the search pattern (the exception propagates out of
the dashboard); reviews are strings here, so `na=False` has no effect. -/
def filterRows (df : List Row) (selected : List Int) (q : String) :
    Option (List Row) :=
  let byRating := df.filter (fun r => selected.contains r.rating)
  if pyStrip q = "" then some byRating
  else
    match parseRegex q.data with
    | none => none
    | some toks => some (byRating.filter (fun r => reSearch toks r.review.data))

/-- Test that `p` occurs at the start of `s` (plain character equality). -/
def leadsWith : List Char → List Char → Bool
  | [], _ => true
  | _ :: _, [] => false
  | a :: ps, b :: cs => (a = b) && leadsWith ps cs

/-- Test that `p` occurs somewhere in `s` (plain character equality). -/
def occursIn (p : List Char) : List Char → Bool
  | [] => leadsWith p []
  | c :: cs => leadsWith p (c :: cs) || occursIn p cs

/-- Case-insensitive literal substring containment, written from the spec's
words ("the review text contains the search string case-insensitively") for
comparison against the code's regex-based filter. -/
def specContainsCI (q s : String) : Bool :=
  occursIn (q.data.map Char.toLower) (s.data.map Char.toLower)

/-- Characters that are neither the `.` wildcard nor a regex
metacharacter. -/
def plainChar (c : Char) : Bool :=
  c ≠ '.' && !(regexSpecialChars.contains c)

/-- One step of `pandas.Series.value_counts`: tally one more occurrence of
`v` into an association list of counts. -/
def bump : List (Int × Nat) → Int → List (Int × Nat)
  | [], v => [(v, 1)]
  | (k, n) :: rest, v =>
    if k = v then (k, n + 1) :: rest else (k, n) :: bump rest v

/-- Modelled `df["rating"].value_counts()` (task2/app.py line 148): the tally
of occurrences of each rating value. The subsequent `.sort_index()` only
reorders the tally and does not affect lookups, so it is not modelled. -/
def value_counts (l : List Int) : List (Int × Nat) := l.foldl bump []

/-- Modelled `counts.get(r, 0)` (line 153): the tallied count of `r`, or `0`
when `r` is absent. -/
def countsGet (vc : List (Int × Nat)) (r : Int) : Nat :=
  match vc.find? (fun p => p.1 == r) with
  | some p => p.2
  | none => 0

/-- Round-half-to-even on an exact rational, the rounding mode of Python's
built-in `round`. -/
def roundHalfEven (q : ℚ) : Int :=
  let f := ⌊q⌋
  if q - f < 1 / 2 then f
  else if (1 / 2 : ℚ) < q - f then f + 1
  else if f % 2 = 0 then f else f + 1

/-- Python `round(x, 2)`, modelled on exact rationals. -/
def round2 (q : ℚ) : ℚ := (roundHalfEven (q * 100) : ℚ) / 100

/-- The analytics row of the Admin Dashboard (task2/app.py lines 146-154):
total submission count, `round(df["rating"].mean(), 2)`, and the per-rating
counts displayed for ratings 1 through 5. The float arithmetic of pandas is
modelled exactly on `ℚ`. -/
structure Analytics where
  total : Nat
  avg : ℚ
  countFor : Int → Nat

/-- Embedding of the Admin Dashboard analytics block over the loaded
table. -/
def adminAnalytics (df : List Row) : Analytics :=
  let ratings := df.map Row.rating
  { total := df.length,
    avg := round2 ((ratings.sum : ℚ) / (ratings.length : ℚ)),
    countFor := fun r => countsGet (value_counts ratings) r }

/-- Value of one cell of the loaded table, after pandas' type inference:
missing (`NaN`), an `int64` integer, a `float64` value (arising in the
modelled fragment only as the exact float of an integer, when an integer
column also holds missing entries), or a plain string from an object column.
Pandas' general float and boolean inference lies outside the modelled
fragment; the theorems below confine themselves to fields where the model is
exact. -/
inductive Cell
  | nan
  | intv (n : Int)
  | floatv (n : Int)
  | str (s : String)
deriving DecidableEq, Repr

/-- Field values that `pandas.read_csv` treats as missing by default (its
`na_values` set); the empty field — how `to_csv` writes `NaN` — is among
them. -/
def naTokens : List String :=
  ["", "#N/A", "#N/A N/A", "#NA", "-1.#IND", "-1.#QNAN", "-NaN", "-nan",
   "1.#IND", "1.#QNAN", "<NA>", "N/A", "NA", "NULL", "NaN", "None",
   "n/a", "nan", "null"]

/-- Decimal integer literal as recognised by the pandas tokenizer: an
optional sign followed by one or more digits. -/
def isIntLit : List Char → Bool
  | [] => false
  | c :: cs =>
    if c = '-' || c = '+' then !cs.isEmpty && cs.all Char.isDigit
    else (c :: cs).all Char.isDigit

/-- Value of a list of decimal digit characters. -/
def parseDigits (l : List Char) : Nat :=
  l.foldl (fun acc c => acc * 10 + (c.toNat - '0'.toNat)) 0

/-- Value of a decimal integer literal. -/
def parseIntLit : List Char → Int
  | [] => (parseDigits [] : Int)
  | c :: cs =>
    if c = '-' then -(parseDigits cs : Int)
    else if c = '+' then (parseDigits cs : Int)
    else (parseDigits (c :: cs) : Int)

/-- The dtype pandas infers for one column in the modelled fragment:
`int64` when every field is an integer literal, `float64` when every field is
an integer literal or a missing value (pandas has no integer NaN, so the
integers are promoted to floats), and `object` otherwise — in an object
column every non-NA field stays a plain string, even one that looks like a
number. -/
inductive ColKind
  | intK
  | floatK
  | objK
deriving DecidableEq, Repr

/-- Column-level dtype inference of `pandas.read_csv` over the fields of one
column (missing fields of short records appear here as the empty string). -/
def inferKind (fields : List String) : ColKind :=
  if fields.all (fun s => isIntLit s.data) then .intK
  else if fields.all (fun s => isIntLit s.data || naTokens.contains s) then .floatK
  else .objK

/-- Conversion of one field under the dtype inferred for its column. -/
def parseFieldAs : ColKind → String → Cell
  | .intK, s => .intv (parseIntLit s.data)
  | .floatK, s =>
    if naTokens.contains s then .nan else .floatv (parseIntLit s.data)
  | .objK, s => if naTokens.contains s then .nan else .str s

/-- Decimal rendering of a natural number with structural fuel; `fuel ≥ n`
suffices, since `n / 10 < n` for `n ≥ 10`. -/
def renderNatAux : Nat → Nat → List Char
  | 0, _ => []
  | fuel + 1, n =>
    if n < 10 then [Nat.digitChar n]
    else renderNatAux fuel (n / 10) ++ [Nat.digitChar (n % 10)]

/-- Decimal rendering of a natural number, most significant digit first. -/
def renderNat (n : Nat) : List Char := renderNatAux (n + 1) n

/-- Decimal rendering of an integer, as Python's `str` writes it. -/
def renderInt (n : Int) : List Char :=
  if n < 0 then '-' :: renderNat n.natAbs else renderNat n.natAbs

/-- Serialization of one cell by `DataFrame.to_csv`: `NaN` becomes the empty
field, integers their decimal rendering, strings themselves. the
comma/quote/newline escaping of `to_csv` is exactly undone by `read_csv`, so
fields are modelled already separated (see `CsvFile`). -/
def serializeCell : Cell → String
  | .nan => ""
  | .intv n => String.mk (renderInt n)
  | .floatv n => String.mk (renderInt n) ++ ".0"
  | .str s => s

/-- Structural view of the backing CSV file `data/submissions.csv`: the
header row and the data records, each a list of fields. Quoting and field
separation are abstracted away (pandas' writer and reader are exact inverses
on that layer), so a record is already a list of field strings. -/
structure CsvFile where
  header : List String
  records : List (List String)
deriving DecidableEq, Repr

/-- In-memory table as loaded by pandas: column names plus cell rows. -/
structure DataFrame where
  header : List String
  rows : List (List Cell)
deriving DecidableEq, Repr

/-- Column names of the submissions table (task2/app.py line 22). -/
def stdColumns : List String :=
  ["timestamp", "rating", "review", "ai_response", "summary", "actions"]

/-- Fields of column `j` of the backing file, one per record in file order;
a record too short to reach column `j` contributes the empty field (pandas
pads short rows with `NaN`, and the empty field is an NA token). -/
def columnFields (f : CsvFile) (j : Nat) : List String :=
  f.records.map (fun rec => rec.getD j "")

/-- Cells of one record under the per-column dtypes of the whole file. -/
def parseRecord (f : CsvFile) (rec : List String) : List Cell :=
  (List.range f.header.length).map
    (fun j => parseFieldAs (inferKind (columnFields f j)) (rec.getD j ""))

/-- Modelled `pandas.read_csv`: the header fixes the column count; a record
with more fields than the header raises `ParserError` (`none`); a record with
fewer fields is padded with `NaN` on the right. Type inference is per column
(`inferKind`): the dtype of each column is determined from all of its fields,
then every field is converted under that dtype. No schema validation
happens: the header is taken as-is. -/
def read_csv (f : CsvFile) : Option DataFrame :=
  if f.records.all (fun rec => rec.length ≤ f.header.length) then
    some { header := f.header, rows := f.records.map (parseRecord f) }
  else none

/-- Embedding of `load_data` (task2/app.py lines 18-22) over the state of the
backing file: an empty six-column table when no file exists, otherwise
whatever `pd.read_csv` does with the file (`none` = the pandas exception
propagates). -/
def load_data : Option CsvFile → Option DataFrame
  | none => some { header := stdColumns, rows := [] }
  | some f => read_csv f

/-- Modelled `DataFrame.to_csv` (used at lines 27 and 169): serialize every
cell back to a field. -/
def to_csv (df : DataFrame) : CsvFile :=
  { header := df.header, records := df.rows.map (fun row => row.map serializeCell) }

/-- Embedding of `delete_all_submissions` (task2/app.py lines 29-31) over the
state of the backing file: `os.remove` is only invoked when the file exists,
so the function is total and always leaves no file behind. -/
def delete_all_submissions : Option CsvFile → Option CsvFile
  | some _ => none
  | none => none

/-- Failure of the whole provider chain for one enrichment call: a key is
configured (so a call actually goes out), the primary attempt fails
(times out / raises on a 4xx-5xx status such as HTTP 500 / has a malformed
body), and the secondary attempt — made only when the OpenRouter key is
present — fails likewise. A response outside 400-599 whose body parses is
not a failure: `raise_for_status` does not raise and its content is used
(see the counterexample to the claim as stated). -/
def chainFails (k1 k2 : Bool) (primary secondary : ProviderResponse) : Prop :=
  (k1 = true ∨ k2 = true) ∧ tryRequest primary = none ∧
    (k2 = true → tryRequest secondary = none)

instance (k1 k2 : Bool) (p s : ProviderResponse) :
    Decidable (chainFails k1 k2 p s) := by
  unfold chainFails; infer_instance

/-- Four-row table whose ratings are `[5, 5, 3, 1]`, the spec's analytics
example. -/
def sampleTable : List Row :=
  [{ timestamp := "t1", rating := 5, review := "r1",
     ai_response := "a", summary := "s", actions := "c" },
   { timestamp := "t2", rating := 5, review := "r2",
     ai_response := "a", summary := "s", actions := "c" },
   { timestamp := "t3", rating := 3, review := "r3",
     ai_response := "a", summary := "s", actions := "c" },
   { timestamp := "t4", rating := 1, review := "r4",
     ai_response := "a", summary := "s", actions := "c" }]

/-- Characters that can occur in a field pandas might interpret numerically
(integer or float syntax, with surrounding whitespace tolerated); an
over-approximation used to state that a string field is safe from the
reader's numeric type inference. -/
def numericLike (l : List Char) : Bool :=
  !l.isEmpty &&
    l.all (fun c => c.isDigit || c == '-' || c == '+' || c == '.' ||
      c == 'e' || c == 'E' || pyIsSpace c)

/-- String fields that `pandas.read_csv` coerces to booleans or infinities
rather than keeping as text. -/
def coercedTokens : List String :=
  ["True", "TRUE", "true", "False", "FALSE", "false",
   "inf", "-inf", "Inf", "-Inf", "INF", "-INF",
   "Infinity", "-Infinity", "infinity", "-infinity"]

/-- String cell the reader keeps as text: not an NA token, not
numeric-looking, and not a boolean/infinity token (checked on the stripped
text, conservatively). -/
def robustCell : Cell → Bool
  | .nan => true
  | .intv _ => true
  | .floatv _ => false
  | .str s =>
    !(naTokens.contains s) && !(numericLike s.data) &&
      !(coercedTokens.contains (pyStrip s))

/-- Column `j` of an in-memory table, as cells (entries past the end of a
row count as missing). -/
def columnOf (rows : List (List Cell)) (j : Nat) : List Cell :=
  rows.map (fun row => row.getD j Cell.nan)

/-- Test for an integer cell. -/
def intCell : Cell → Bool
  | .intv _ => true
  | _ => false

/-- Cell admissible in a text column that reloads unchanged: missing, or a
string the reader keeps as text. -/
def textCell : Cell → Bool
  | .nan => true
  | .str s => robustCell (.str s)
  | _ => false

/-- Column whose serialized form reloads to the very same cells under the
reader's per-column dtype inference: either a pure integer column (a missing
value would promote the integers to floats), or a text column of missing
values and robust strings. -/
def robustColumn (col : List Cell) : Bool :=
  col.all intCell || col.all textCell

lemma pyStrip_empty : pyStrip "" = "" := rfl

lemma ne_empty_of_pyStrip_ne_empty {s : String} (h : pyStrip s ≠ "") : s ≠ "" := by
  intro hs
  exact h (hs ▸ pyStrip_empty)

lemma stringMk_append (l m : List Char) :
    String.mk l ++ String.mk m = String.mk (l ++ m) := rfl

lemma string_eq_empty_iff {s : String} : s = "" ↔ s.data = [] := by
  constructor
  · intro h; rw [h]
  · intro h; cases s; simp_all

lemma string_length_eq {s : String} : s.length = s.data.length := by
  cases s; rfl

lemma stringData_inj {s t : String} (h : s.data = t.data) : s = t := by
  cases s; cases t; exact congrArg String.mk h

lemma fallback_summary_ne_empty {s : String} (h : s ≠ "") :
    fallback_summary s ≠ "" := by
  intro hcontra
  rw [string_eq_empty_iff] at hcontra
  unfold fallback_summary at hcontra
  rw [String.data_append] at hcontra
  rcases List.append_eq_nil.mp hcontra with ⟨h1, _⟩
  have hdata : s.data = [] := by
    rcases hs : s.data with _ | ⟨c, cs⟩
    · rfl
    · rw [hs] at h1; simp at h1
  exact h (string_eq_empty_iff.mpr hdata)

lemma fallback_user_response_ne_empty (r : Int) (v : String) :
    fallback_user_response r v ≠ "" := by
  unfold fallback_user_response; decide

lemma fallback_actions_ne_empty (v : String) (r : Int) :
    fallback_actions v r ≠ "" := by
  unfold fallback_actions; decide

/-! ## C2: whitespace-only review is rejected, nothing persisted -/

/-- C2: for every review that is empty after stripping, the submit handler
reports a validation error, issues no enrichment prompt, and leaves the
stored table unchanged. -/
theorem whitespace_review_rejected (rating : Int) (review ts : String)
    (k1 k2 : Bool) (p1 p2 p3 p4 p5 p6 : ProviderResponse) (table : List Row)
    (h : pyStrip review = "") :
    submitHandler rating review ts k1 k2 p1 p2 p3 p4 p5 p6 table =
      { result := .rejected, table := table, promptsIssued := [] } := by
  simp [submitHandler, h]

/-- Witness for C2 at a concrete whitespace-only review. -/
theorem whitespace_review_rejected_witness :
    pyStrip " \t \n " = "" ∧
    submitHandler 5 " \t \n " "2024-01-01T00:00:00" true false
        .netError .netError .netError .netError .netError .netError [] =
      { result := .rejected, table := [], promptsIssued := [] } :=
  ⟨by decide,
   whitespace_review_rejected 5 " \t \n " "2024-01-01T00:00:00" true false
     .netError .netError .netError .netError .netError .netError [] (by decide)⟩

/-! ## C4: fallback summary truncation -/

/-- C4: the fallback summary is the first 160 characters of the review with
an ellipsis marker appended exactly when the review exceeds 160 characters;
a 200-character review yields exactly 160 characters plus the marker, and a
100-character review is returned unchanged. -/
theorem fallback_summary_spec :
    (∀ r : String,
      fallback_summary r =
        if 160 < r.length then String.mk (r.data.take 160) ++ "..." else r) ∧
    (∀ r : String, r.length = 200 →
      fallback_summary r = String.mk (r.data.take 160) ++ "..." ∧
      (String.mk (r.data.take 160)).length = 160 ∧
      (fallback_summary r).length = 163) ∧
    (∀ r : String, r.length = 100 → fallback_summary r = r) := by
  have hdata : ∀ r : String, (fallback_summary r).data =
      r.data.take 160 ++ (if 160 < r.data.length then ['.', '.', '.'] else []) := by
    intro r
    unfold fallback_summary
    rw [String.data_append]
    by_cases h : r.data.length > 160
    · rw [if_pos h, if_pos h]
    · rw [if_neg h, if_neg h]
  have hgen : ∀ r : String,
      fallback_summary r =
        if 160 < r.length then String.mk (r.data.take 160) ++ "..." else r := by
    intro r
    by_cases h : 160 < r.data.length
    · rw [if_pos (string_length_eq ▸ h)]
      apply stringData_inj
      rw [hdata r, if_pos h, String.data_append]
    · rw [if_neg (string_length_eq ▸ h)]
      apply stringData_inj
      rw [hdata r, if_neg h, List.append_nil,
          List.take_of_length_le (Nat.le_of_not_lt h)]
  refine ⟨hgen, fun r h200 => ?_, fun r h100 => ?_⟩
  · have hd200 : r.data.length = 200 := string_length_eq ▸ h200
    have hlt : 160 < r.data.length := by omega
    have h1 : fallback_summary r = String.mk (r.data.take 160) ++ "..." := by
      rw [hgen r, if_pos (string_length_eq ▸ hlt)]
    have h2 : (String.mk (r.data.take 160)).length = 160 := by
      rw [string_length_eq]
      show (r.data.take 160).length = 160
      rw [List.length_take_of_le (by omega)]
    refine ⟨h1, h2, ?_⟩
    rw [string_length_eq, hdata r, if_pos hlt, List.length_append,
        List.length_take_of_le (by omega)]
    rfl
  · have hd100 : r.data.length = 100 := string_length_eq ▸ h100
    rw [hgen r, if_neg]
    rw [string_length_eq, hd100]
    omega

set_option maxRecDepth 4096 in
/-- Witness for C4 at concrete 200- and 100-character reviews. -/
theorem fallback_summary_spec_witness :
    (String.mk (List.replicate 200 'x')).length = 200 ∧
    (fallback_summary (String.mk (List.replicate 200 'x'))).length = 163 ∧
    (String.mk (List.replicate 100 'y')).length = 100 ∧
    fallback_summary (String.mk (List.replicate 100 'y')) =
      String.mk (List.replicate 100 'y') :=
  ⟨by decide,
   (fallback_summary_spec.2.1 (String.mk (List.replicate 200 'x'))
     (by decide)).2.2,
   by decide,
   fallback_summary_spec.2.2 (String.mk (List.replicate 100 'y')) (by decide)⟩

/-! ## C8: deleteAll followed by load, idempotence -/

/-- C8: after `delete_all_submissions` a `load_data` returns the empty
six-column table, and deleting twice in a row equals deleting once — the
operation is a total function, so deleting with no backing file present is a
no-op rather than an error. -/
theorem deleteAll_then_load_empty :
    (∀ disk : Option CsvFile,
      load_data (delete_all_submissions disk) =
        some { header := stdColumns, rows := [] }) ∧
    (∀ disk : Option CsvFile,
      delete_all_submissions (delete_all_submissions disk) =
        delete_all_submissions disk) := by
  constructor
  · intro disk; cases disk <;> rfl
  · intro disk; cases disk <;> rfl

/-! ## C1: persisted record population (corrected) -/

/-- C1 counterexample to the claim as stated: with a key configured and the
primary provider answering 200 OK with whitespace-only content, the content
strips to the empty string, the submission succeeds, and the persisted row
has an empty `ai_response` field — so not every successful submission has all
six fields non-empty. -/
theorem provider_blank_content_cex :
    submitHandler 5 "Great" "2024-01-01T00:00:00" true false
        (.response 200 (some "   ")) .netError .netError .netError
        .netError .netError [] =
      { result := .saved
          { timestamp := "2024-01-01T00:00:00", rating := 5, review := "Great",
            ai_response := "", summary := fallback_summary "Great",
            actions := fallback_actions "Great" 5 },
        table :=
          [{ timestamp := "2024-01-01T00:00:00", rating := 5, review := "Great",
             ai_response := "", summary := fallback_summary "Great",
             actions := fallback_actions "Great" 5 }],
        promptsIssued :=
          [user_reply_prompt 5 "Great", summary_prompt "Great",
           actions_prompt "Great" 5] } ∧
    Row.ai_response
        { timestamp := "2024-01-01T00:00:00", rating := 5, review := "Great",
          ai_response := "", summary := fallback_summary "Great",
          actions := fallback_actions "Great" 5 } = "" := by
  constructor
  · decide
  · rfl

/-- C1 amended: every successful submission persists a row in which all six
fields are present, `timestamp`, `rating` and `review` carry the validated
inputs with `timestamp` and `review` non-empty, and each enrichment field is
non-empty whenever it came from the local fallback; an enrichment that came
from a provider equals the provider chain's trimmed text, and is therefore
empty exactly when that text was whitespace-only. -/
theorem persisted_record_fields_amended (rating : Int) (review ts : String)
    (k1 k2 : Bool) (rp rs sp ss ap aq : ProviderResponse) (table : List Row)
    (hr : pyStrip review ≠ "") (hts : ts ≠ "") :
    ∃ row : Row,
      submitHandler rating review ts k1 k2 rp rs sp ss ap aq table =
        { result := .saved row, table := table ++ [row],
          promptsIssued :=
            [user_reply_prompt rating review, summary_prompt review,
             actions_prompt review rating] } ∧
      row.timestamp = ts ∧ row.rating = rating ∧ row.review = review ∧
      row.timestamp ≠ "" ∧ row.review ≠ "" ∧
      (call_llm_text k1 k2 rp rs = none →
        row.ai_response = fallback_user_response rating review ∧
        row.ai_response ≠ "") ∧
      (call_llm_text k1 k2 sp ss = none →
        row.summary = fallback_summary review ∧ row.summary ≠ "") ∧
      (call_llm_text k1 k2 ap aq = none →
        row.actions = fallback_actions review rating ∧ row.actions ≠ "") ∧
      (∀ s, call_llm_text k1 k2 rp rs = some s → row.ai_response = s) ∧
      (∀ s, call_llm_text k1 k2 sp ss = some s → row.summary = s) ∧
      (∀ s, call_llm_text k1 k2 ap aq = some s → row.actions = s) := by
  refine ⟨{ timestamp := ts, rating := rating, review := review,
            ai_response := (call_llm_text k1 k2 rp rs).getD
              (fallback_user_response rating review),
            summary := (call_llm_text k1 k2 sp ss).getD
              (fallback_summary review),
            actions := (call_llm_text k1 k2 ap aq).getD
              (fallback_actions review rating) }, ?_, rfl, rfl, rfl, hts,
          ne_empty_of_pyStrip_ne_empty hr, ?_, ?_, ?_, ?_, ?_, ?_⟩
  · simp [submitHandler, hr]
  · intro hnone
    show (call_llm_text k1 k2 rp rs).getD (fallback_user_response rating review)
        = fallback_user_response rating review ∧
      (call_llm_text k1 k2 rp rs).getD (fallback_user_response rating review) ≠ ""
    rw [hnone]
    exact ⟨rfl, fallback_user_response_ne_empty rating review⟩
  · intro hnone
    show (call_llm_text k1 k2 sp ss).getD (fallback_summary review)
        = fallback_summary review ∧
      (call_llm_text k1 k2 sp ss).getD (fallback_summary review) ≠ ""
    rw [hnone]
    exact ⟨rfl, fallback_summary_ne_empty (ne_empty_of_pyStrip_ne_empty hr)⟩
  · intro hnone
    show (call_llm_text k1 k2 ap aq).getD (fallback_actions review rating)
        = fallback_actions review rating ∧
      (call_llm_text k1 k2 ap aq).getD (fallback_actions review rating) ≠ ""
    rw [hnone]
    exact ⟨rfl, fallback_actions_ne_empty review rating⟩
  · intro s hs
    show (call_llm_text k1 k2 rp rs).getD (fallback_user_response rating review) = s
    rw [hs]
    rfl
  · intro s hs
    show (call_llm_text k1 k2 sp ss).getD (fallback_summary review) = s
    rw [hs]
    rfl
  · intro s hs
    show (call_llm_text k1 k2 ap aq).getD (fallback_actions review rating) = s
    rw [hs]
    rfl

/-- Witness for C1 (amended) at a concrete fallback-only submission. -/
theorem persisted_record_fields_amended_witness :
    pyStrip "Tasty food" ≠ "" ∧ ("2024-01-01T00:00:00" : String) ≠ "" ∧
    ∃ row : Row,
      submitHandler 4 "Tasty food" "2024-01-01T00:00:00" false false
          .netError .netError .netError .netError .netError .netError [] =
        { result := .saved row, table := [] ++ [row],
          promptsIssued :=
            [user_reply_prompt 4 "Tasty food", summary_prompt "Tasty food",
             actions_prompt "Tasty food" 4] } ∧
      row.timestamp = "2024-01-01T00:00:00" ∧ row.rating = 4 ∧
      row.review = "Tasty food" ∧
      row.timestamp ≠ "" ∧ row.review ≠ "" ∧
      (call_llm_text false false .netError .netError = none →
        row.ai_response = fallback_user_response 4 "Tasty food" ∧
        row.ai_response ≠ "") ∧
      (call_llm_text false false .netError .netError = none →
        row.summary = fallback_summary "Tasty food" ∧ row.summary ≠ "") ∧
      (call_llm_text false false .netError .netError = none →
        row.actions = fallback_actions "Tasty food" 4 ∧ row.actions ≠ "") ∧
      (∀ s, call_llm_text false false .netError .netError = some s →
        row.ai_response = s) ∧
      (∀ s, call_llm_text false false .netError .netError = some s →
        row.summary = s) ∧
      (∀ s, call_llm_text false false .netError .netError = some s →
        row.actions = s) :=
  ⟨by decide, by decide,
   persisted_record_fields_amended 4 "Tasty food" "2024-01-01T00:00:00"
     false false .netError .netError .netError .netError .netError .netError
     [] (by decide) (by decide)⟩

/-! ## C3: provider failure degrades to fallback, submission persists -/

lemma call_llm_text_eq_none_of_chainFails {k1 k2 : Bool}
    {p s : ProviderResponse} (h : chainFails k1 k2 p s) :
    call_llm_text k1 k2 p s = none := by
  obtain ⟨hkey, hp, hs⟩ := h
  unfold call_llm_text
  have hk : (k1 || k2) = true := by
    rcases hkey with h | h <;> simp [h]
  rw [hp, hk]
  cases hk2 : k2 with
  | false => simp
  | true => rw [hs hk2]; simp

/-- C3 counterexample to the claim as stated: the claim counts every non-2xx
status as a provider failure to be replaced by the local fallback, but
`raise_for_status` raises only for 400-599. Here the reply call gets an
HTTP 304 — a non-2xx status — with a body that parses, the code raises
nothing, and the persisted `ai_response` is the provider's text, not the
deterministic fallback. -/
theorem provider_304_content_cex :
    submitHandler 5 "Great" "2024-01-01T00:00:00" true false
        (.response 304 (some "cached reply")) .netError .netError .netError
        .netError .netError [] =
      { result := .saved
          { timestamp := "2024-01-01T00:00:00", rating := 5, review := "Great",
            ai_response := "cached reply", summary := fallback_summary "Great",
            actions := fallback_actions "Great" 5 },
        table :=
          [{ timestamp := "2024-01-01T00:00:00", rating := 5, review := "Great",
             ai_response := "cached reply",
             summary := fallback_summary "Great",
             actions := fallback_actions "Great" 5 }],
        promptsIssued :=
          [user_reply_prompt 5 "Great", summary_prompt "Great",
           actions_prompt "Great" 5] } ∧
    ("cached reply" : String) ≠ fallback_user_response 5 "Great" := by
  constructor
  · decide
  · decide

/-- C3 amended: whenever the provider chain of an enrichment call fails in
the sense the code recognises — timeout, HTTP 4xx-5xx status such as 500, or
malformed body, on every attempted endpoint — the submit handler substitutes
the deterministic local fallback for that enrichment, reports success rather
than an error, and still appends the row to the stored table. A non-2xx
status outside 400-599 (an unfollowed 3xx) does not raise, and a parseable
body accompanying it is used instead of the fallback. -/
theorem provider_failure_fallback_persists (rating : Int) (review ts : String)
    (k1 k2 : Bool) (rp rs sp ss ap aq : ProviderResponse) (table : List Row)
    (hr : pyStrip review ≠ "") :
    ∃ row : Row,
      submitHandler rating review ts k1 k2 rp rs sp ss ap aq table =
        { result := .saved row, table := table ++ [row],
          promptsIssued :=
            [user_reply_prompt rating review, summary_prompt review,
             actions_prompt review rating] } ∧
      (chainFails k1 k2 rp rs →
        row.ai_response = fallback_user_response rating review) ∧
      (chainFails k1 k2 sp ss → row.summary = fallback_summary review) ∧
      (chainFails k1 k2 ap aq → row.actions = fallback_actions review rating) := by
  refine ⟨{ timestamp := ts, rating := rating, review := review,
            ai_response := (call_llm_text k1 k2 rp rs).getD
              (fallback_user_response rating review),
            summary := (call_llm_text k1 k2 sp ss).getD
              (fallback_summary review),
            actions := (call_llm_text k1 k2 ap aq).getD
              (fallback_actions review rating) }, ?_, ?_, ?_, ?_⟩
  · simp [submitHandler, hr]
  · intro hf
    show (call_llm_text k1 k2 rp rs).getD (fallback_user_response rating review)
        = fallback_user_response rating review
    rw [call_llm_text_eq_none_of_chainFails hf]
    rfl
  · intro hf
    show (call_llm_text k1 k2 sp ss).getD (fallback_summary review)
        = fallback_summary review
    rw [call_llm_text_eq_none_of_chainFails hf]
    rfl
  · intro hf
    show (call_llm_text k1 k2 ap aq).getD (fallback_actions review rating)
        = fallback_actions review rating
    rw [call_llm_text_eq_none_of_chainFails hf]
    rfl

/-- Witness for C3: a concrete submission where the reply call times out, the
summary call gets HTTP 500 and the actions call a malformed body, with only
the primary key configured — every enrichment falls back and the row is
persisted. -/
theorem provider_failure_fallback_persists_witness :
    pyStrip "Service was slow" ≠ "" ∧
    ∃ row : Row,
      submitHandler 2 "Service was slow" "2024-01-02T00:00:00" true false
          .netError .netError (.response 500 (some "body")) .netError
          (.response 200 none) .netError [] =
        { result := .saved row, table := [] ++ [row],
          promptsIssued :=
            [user_reply_prompt 2 "Service was slow",
             summary_prompt "Service was slow",
             actions_prompt "Service was slow" 2] } ∧
      (chainFails true false .netError .netError →
        row.ai_response = fallback_user_response 2 "Service was slow") ∧
      (chainFails true false (.response 500 (some "body")) .netError →
        row.summary = fallback_summary "Service was slow") ∧
      (chainFails true false (.response 200 none) .netError →
        row.actions = fallback_actions "Service was slow" 2) :=
  ⟨by decide,
   provider_failure_fallback_persists 2 "Service was slow"
     "2024-01-02T00:00:00" true false .netError .netError
     (.response 500 (some "body")) .netError (.response 200 none) .netError
     [] (by decide)⟩

/-! ## C5 and C10: admin filter semantics -/

lemma parseRegex_plain {l : List Char} (h : ∀ c ∈ l, plainChar c = true) :
    parseRegex l = some (l.map RTok.lit) := by
  induction l with
  | nil => rfl
  | cons c cs ih =>
    have hc : ¬ c = '.' ∧ c ∉ regexSpecialChars := by
      simpa [plainChar] using h c (by simp)
    unfold parseRegex
    rw [if_neg hc.1, if_neg (by simpa using hc.2),
        ih (fun x hx => h x (by simp [hx]))]
    rfl

lemma matchHere_lits (p s : List Char) :
    matchHere (p.map RTok.lit) s =
      leadsWith (p.map Char.toLower) (s.map Char.toLower) := by
  induction p generalizing s with
  | nil => cases s <;> rfl
  | cons a ps ih =>
    cases s with
    | nil => rfl
    | cons b cs =>
      show (tokMatches (RTok.lit a) b && matchHere (ps.map RTok.lit) cs) = _
      rw [ih cs]
      rfl

lemma reSearch_lits (p s : List Char) :
    reSearch (p.map RTok.lit) s =
      occursIn (p.map Char.toLower) (s.map Char.toLower) := by
  induction s with
  | nil =>
    show matchHere (p.map RTok.lit) [] = occursIn (p.map Char.toLower) []
    rw [matchHere_lits]
    rfl
  | cons c cs ih =>
    show (matchHere (p.map RTok.lit) (c :: cs) ||
          reSearch (p.map RTok.lit) cs) = _
    rw [matchHere_lits, ih]
    rfl

/-- C5 amended: for a search string free of regex metacharacters — which is
when the code's regex search agrees with the spec's literal reading — the
filter keeps exactly the rows whose rating is in the selected set and whose
review contains the search string case-insensitively (or the search string
is blank), and an empty selected-rating set always yields an empty result.
For search strings containing metacharacters the code instead applies them
as a regular expression (see the counterexample), and invalid patterns make
the filter raise. -/
theorem admin_filter_amended (df : List Row) (selected : List Int) (q : String)
    (hq : ∀ c ∈ q.data, plainChar c = true) :
    filterRows df selected q =
      some (df.filter (fun r => selected.contains r.rating &&
        (decide (pyStrip q = "") || specContainsCI q r.review))) ∧
    filterRows df [] q = some [] := by
  have hempty : filterRows df [] q = some [] := by
    unfold filterRows
    have h0 : df.filter (fun r => List.contains ([] : List Int) r.rating) = [] := by
      simp [List.contains]
    rw [h0]
    by_cases hq0 : pyStrip q = ""
    · rw [if_pos hq0]
    · rw [if_neg hq0, parseRegex_plain hq]
      rfl
  refine ⟨?_, hempty⟩
  unfold filterRows
  by_cases hq0 : pyStrip q = ""
  · rw [if_pos hq0]
    congr 1
    apply List.filter_congr
    intro r _
    simp [hq0]
  · rw [if_neg hq0, parseRegex_plain hq]
    show some _ = _
    congr 1
    rw [List.filter_filter]
    apply List.filter_congr
    intro r _
    rw [reSearch_lits]
    simp [hq0, specContainsCI, Bool.and_comm]

/-- Witness for C5 (amended) at a concrete table, rating set and
metacharacter-free search string. -/
theorem admin_filter_amended_witness :
    (∀ c ∈ ("slow" : String).data, plainChar c = true) ∧
    (filterRows
        [{ timestamp := "t1", rating := 5, review := "Slow service",
           ai_response := "a", summary := "s", actions := "c" },
         { timestamp := "t2", rating := 2, review := "Slow service",
           ai_response := "a", summary := "s", actions := "c" },
         { timestamp := "t3", rating := 5, review := "Lovely",
           ai_response := "a", summary := "s", actions := "c" }]
        [4, 5] "slow" =
      some ([{ timestamp := "t1", rating := 5, review := "Slow service",
               ai_response := "a", summary := "s", actions := "c" },
             { timestamp := "t2", rating := 2, review := "Slow service",
               ai_response := "a", summary := "s", actions := "c" },
             { timestamp := "t3", rating := 5, review := "Lovely",
               ai_response := "a", summary := "s", actions := "c" }].filter
        (fun r => List.contains [4, 5] r.rating &&
          (decide (pyStrip "slow" = "") ||
            specContainsCI "slow" r.review)))) ∧
    filterRows
        [{ timestamp := "t1", rating := 5, review := "Slow service",
           ai_response := "a", summary := "s", actions := "c" },
         { timestamp := "t2", rating := 2, review := "Slow service",
           ai_response := "a", summary := "s", actions := "c" },
         { timestamp := "t3", rating := 5, review := "Lovely",
           ai_response := "a", summary := "s", actions := "c" }]
        [] "slow" = some [] := by
  refine ⟨by decide, ?_, ?_⟩
  · exact (admin_filter_amended
      [{ timestamp := "t1", rating := 5, review := "Slow service",
         ai_response := "a", summary := "s", actions := "c" },
       { timestamp := "t2", rating := 2, review := "Slow service",
         ai_response := "a", summary := "s", actions := "c" },
       { timestamp := "t3", rating := 5, review := "Lovely",
         ai_response := "a", summary := "s", actions := "c" }]
      [4, 5] "slow" (by decide)).1
  · exact (admin_filter_amended
      [{ timestamp := "t1", rating := 5, review := "Slow service",
         ai_response := "a", summary := "s", actions := "c" },
       { timestamp := "t2", rating := 2, review := "Slow service",
         ai_response := "a", summary := "s", actions := "c" },
       { timestamp := "t3", rating := 5, review := "Lovely",
         ai_response := "a", summary := "s", actions := "c" }]
      [4, 5] "slow" (by decide)).2

/-- C5 counterexample to the claim as stated: with the search string `"a.c"`
the filter keeps a row whose review is `"axc"`, although that review does not
contain the search string as a literal substring (case-insensitively or
otherwise) — `str.contains` treats the string as a regular expression in
which `.` matches any character. -/
theorem admin_filter_literal_cex :
    filterRows
        [{ timestamp := "t", rating := 5, review := "axc",
           ai_response := "a", summary := "s", actions := "c" }]
        [5] "a.c" =
      some [{ timestamp := "t", rating := 5, review := "axc",
              ai_response := "a", summary := "s", actions := "c" }] ∧
    specContainsCI "a.c" "axc" = false := by
  constructor
  · decide
  · decide

/-- C10 counterexample to the claim as stated: the filter is not total — for
the search string `"["` (an invalid regular expression) `re.compile` raises
`re.error` inside `str.contains` and the exception propagates out of the
admin view instead of any filtered result being produced. -/
theorem admin_search_total_cex :
    filterRows
        [{ timestamp := "t", rating := 5, review := "abc",
           ai_response := "a", summary := "s", actions := "c" }]
        [5] "[" = none := by
  decide

/-- C10 amended: the admin filter passes the search string to pandas
`str.contains`, which interprets it as a regular-expression pattern — `"a.c"`
matches the review `"AXC"` (wildcard `.` plus case-insensitivity) yet fails
to match `"ac"`, a behaviour no literal substring test exhibits — but the
filter is not total: an invalid pattern such as `"("` raises instead of
returning rows. -/
theorem admin_search_regex_amended :
    filterRows
        [{ timestamp := "t1", rating := 5, review := "AXC",
           ai_response := "a", summary := "s", actions := "c" },
         { timestamp := "t2", rating := 4, review := "ac",
           ai_response := "a", summary := "s", actions := "c" }]
        [4, 5] "a.c" =
      some [{ timestamp := "t1", rating := 5, review := "AXC",
              ai_response := "a", summary := "s", actions := "c" }] ∧
    filterRows
        [{ timestamp := "t1", rating := 5, review := "AXC",
           ai_response := "a", summary := "s", actions := "c" }]
        [5] "(" = none := by
  constructor
  · decide
  · decide

/-! ## C6: analytics aggregate -/

lemma countsGet_bump (acc : List (Int × Nat)) (v r : Int) :
    countsGet (bump acc v) r = countsGet acc r + (if v = r then 1 else 0) := by
  induction acc with
  | nil =>
    show countsGet [(v, 1)] r = countsGet [] r + (if v = r then 1 else 0)
    by_cases h : v = r
    · simp [countsGet, List.find?, h]
    · simp [countsGet, List.find?, show (v == r) = false by simp [h], h]
  | cons p rest ih =>
    obtain ⟨k, n⟩ := p
    show countsGet (if k = v then (k, n + 1) :: rest else (k, n) :: bump rest v) r
        = countsGet ((k, n) :: rest) r + (if v = r then 1 else 0)
    by_cases hkv : k = v
    · rw [if_pos hkv]
      by_cases hkr : k = r
      · subst hkv; subst hkr
        simp [countsGet, List.find?]
      · have hvr : ¬ v = r := fun h => hkr (hkv.trans h)
        simp [countsGet, List.find?, show (k == r) = false by simp [hkr], hvr]
    · rw [if_neg hkv]
      by_cases hkr : k = r
      · subst hkr
        have hvr : ¬ v = k := fun h => hkv h.symm
        simp [countsGet, List.find?, hvr]
      · simp only [countsGet, List.find?, show (k == r) = false by simp [hkr]]
        exact ih

lemma countsGet_foldl (l : List Int) (acc : List (Int × Nat)) (r : Int) :
    countsGet (l.foldl bump acc) r = countsGet acc r + l.count r := by
  induction l generalizing acc with
  | nil => simp
  | cons v vs ih =>
    show countsGet (vs.foldl bump (bump acc v)) r = _
    rw [ih (bump acc v), countsGet_bump, List.count_cons]
    have heq : (if (v == r) = true then 1 else 0) = (if v = r then 1 else 0) := by
      by_cases h : v = r <;> simp [h]
    rw [heq]
    omega


lemma value_counts_count (l : List Int) (r : Int) :
    countsGet (value_counts l) r = l.count r := by
  unfold value_counts
  rw [countsGet_foldl]
  simp [countsGet, List.find?]

/-- C6: the analytics block reports the total row count and, for every rating
value, the number of rows carrying it (zero when the value is absent); over
the ratings `[5, 5, 3, 1]` the counts for 1..5 are 1, 0, 1, 0, 2, the total
is 4, and the mean rounded to two decimal places is 3.5. -/
theorem admin_analytics_aggregate :
    (∀ df : List Row, (adminAnalytics df).total = df.length) ∧
    (∀ (df : List Row) (r : Int),
      (adminAnalytics df).countFor r = (df.map Row.rating).count r) ∧
    ((adminAnalytics sampleTable).total = 4 ∧
     (adminAnalytics sampleTable).countFor 1 = 1 ∧
     (adminAnalytics sampleTable).countFor 2 = 0 ∧
     (adminAnalytics sampleTable).countFor 3 = 1 ∧
     (adminAnalytics sampleTable).countFor 4 = 0 ∧
     (adminAnalytics sampleTable).countFor 5 = 2 ∧
     (adminAnalytics sampleTable).avg = 7 / 2) := by
  refine ⟨fun df => rfl, fun df r => value_counts_count _ r,
          rfl, ?_, ?_, ?_, ?_, ?_, ?_⟩
  · decide
  · decide
  · decide
  · decide
  · decide
  · show round2 ((([5, 5, 3, 1] : List Int).sum : ℚ) /
        (([5, 5, 3, 1] : List Int).length : ℚ)) = 7 / 2
    have hsum : (([5, 5, 3, 1] : List Int).sum : ℚ) = 14 := by norm_num
    have hlen : ((([5, 5, 3, 1] : List Int).length : Nat) : ℚ) = 4 := by norm_num
    rw [hsum, hlen]
    have harg : (14 : ℚ) / 4 * 100 = ((350 : Int) : ℚ) := by norm_num
    unfold round2 roundHalfEven
    rw [harg, Int.floor_intCast]
    norm_num

/-! ## C7: load behaviour on missing and malformed files (corrected) -/

lemma digitChar_spec {m : Nat} (h : m < 10) :
    (Nat.digitChar m).isDigit = true ∧
    (Nat.digitChar m).toNat - '0'.toNat = m := by
  interval_cases m <;> exact ⟨by decide, by decide⟩

lemma parseDigits_append (l : List Char) (c : Char) :
    parseDigits (l ++ [c]) = parseDigits l * 10 + (c.toNat - '0'.toNat) := by
  unfold parseDigits
  rw [List.foldl_append]
  rfl

lemma parseDigits_single (c : Char) :
    parseDigits [c] = c.toNat - '0'.toNat := by
  unfold parseDigits
  simp

lemma renderNatAux_spec (fuel : Nat) :
    ∀ n, n < fuel →
      (renderNatAux fuel n).all Char.isDigit = true ∧
      parseDigits (renderNatAux fuel n) = n ∧
      renderNatAux fuel n ≠ [] := by
  induction fuel with
  | zero => intro n h; omega
  | succ fuel ih =>
    intro n h
    by_cases h10 : n < 10
    · obtain ⟨hd, hv⟩ := digitChar_spec h10
      simp only [renderNatAux, if_pos h10]
      exact ⟨by simp [hd], by rw [parseDigits_single, hv], by simp⟩
    · have hge : 10 ≤ n := Nat.le_of_not_lt h10
      have hdiv : n / 10 < fuel :=
        Nat.lt_of_lt_of_le (Nat.div_lt_self (by omega) (by omega))
          (Nat.lt_succ_iff.mp h)
      obtain ⟨ha, hp, hne⟩ := ih (n / 10) hdiv
      obtain ⟨hd2, hv2⟩ := digitChar_spec (Nat.mod_lt n (by omega))
      simp only [renderNatAux, if_neg h10]
      refine ⟨?_, ?_, by simp⟩
      · rw [List.all_append]
        simp [ha, hd2]
      · rw [parseDigits_append, hp, hv2]
        omega

lemma renderNat_spec (n : Nat) :
    (renderNat n).all Char.isDigit = true ∧
    parseDigits (renderNat n) = n ∧
    renderNat n ≠ [] :=
  renderNatAux_spec (n + 1) n (Nat.lt_succ_self n)

lemma renderInt_check (n : Int) :
    (!(renderInt n).isEmpty &&
      (renderInt n).all (fun c => c.isDigit || c == '-')) = true := by
  obtain ⟨ha, _, hne⟩ := renderNat_spec n.natAbs
  have hall : (renderNat n.natAbs).all (fun c => c.isDigit || c == '-') = true := by
    rw [List.all_eq_true] at ha ⊢
    intro x hx
    simp [ha x hx]
  unfold renderInt
  by_cases h : n < 0
  · rw [if_pos h]
    simp [hall]
  · rw [if_neg h]
    rcases hl : renderNat n.natAbs with _ | ⟨c, cs⟩
    · exact absurd hl hne
    · rw [hl] at hall
      simp_all

lemma naTokens_check :
    ∀ t ∈ naTokens,
      (!(t.data.isEmpty) && t.data.all (fun c => c.isDigit || c == '-')) = false := by
  decide

lemma renderInt_not_na (n : Int) :
    naTokens.contains (String.mk (renderInt n)) = false := by
  by_contra h
  rw [Bool.not_eq_false] at h
  have hmem : String.mk (renderInt n) ∈ naTokens := by simpa using h
  have hc := naTokens_check _ hmem
  have hdata : (String.mk (renderInt n)).data = renderInt n := rfl
  rw [hdata, renderInt_check n] at hc
  exact Bool.noConfusion hc

lemma isIntLit_renderInt (n : Int) : isIntLit (renderInt n) = true := by
  obtain ⟨ha, _, hne⟩ := renderNat_spec n.natAbs
  unfold renderInt
  by_cases h : n < 0
  · rw [if_pos h]
    show isIntLit ('-' :: renderNat n.natAbs) = true
    simp only [isIntLit]
    rw [if_pos (by decide)]
    simp_all [List.isEmpty_iff]
  · rw [if_neg h]
    rcases hl : renderNat n.natAbs with _ | ⟨c, cs⟩
    · exact absurd hl hne
    · rw [hl] at ha
      have hcd : c.isDigit = true := by
        rw [List.all_eq_true] at ha
        exact ha c (List.mem_cons_self c cs)
      have hcm : ¬ c = '-' := fun hcc => by rw [hcc] at hcd; exact Bool.noConfusion hcd
      have hcp : ¬ c = '+' := fun hcc => by rw [hcc] at hcd; exact Bool.noConfusion hcd
      show isIntLit (c :: cs) = true
      simp only [isIntLit]
      rw [if_neg (by simp [hcm, hcp])]
      exact ha

lemma parseIntLit_renderInt (n : Int) : parseIntLit (renderInt n) = n := by
  obtain ⟨ha, hp, hne⟩ := renderNat_spec n.natAbs
  unfold renderInt
  by_cases h : n < 0
  · rw [if_pos h]
    show parseIntLit ('-' :: renderNat n.natAbs) = n
    simp only [parseIntLit]
    rw [if_pos trivial, hp]
    omega
  · rw [if_neg h]
    rcases hl : renderNat n.natAbs with _ | ⟨c, cs⟩
    · exact absurd hl hne
    · rw [hl] at ha hp
      have hcd : c.isDigit = true := by
        rw [List.all_eq_true] at ha
        exact ha c (List.mem_cons_self c cs)
      have hcm : ¬ c = '-' := fun hcc => by rw [hcc] at hcd; exact Bool.noConfusion hcd
      have hcp : ¬ c = '+' := fun hcc => by rw [hcc] at hcd; exact Bool.noConfusion hcd
      show parseIntLit (c :: cs) = n
      simp only [parseIntLit]
      rw [if_neg hcm, if_neg hcp, hp]
      omega

lemma isIntLit_numericLike {l : List Char} (h : isIntLit l = true) :
    numericLike l = true := by
  cases l with
  | nil => exact Bool.noConfusion h
  | cons c cs =>
    simp only [isIntLit] at h
    unfold numericLike
    by_cases hsign : (decide (c = '-') || decide (c = '+')) = true
    · rw [if_pos hsign] at h
      rw [Bool.and_eq_true] at h
      rw [Bool.and_eq_true]
      refine ⟨by simp, ?_⟩
      rw [List.all_cons, Bool.and_eq_true]
      constructor
      · rcases Bool.or_eq_true_iff.mp hsign with h1 | h1 <;>
          simp_all
      · rw [List.all_eq_true] at h ⊢
        intro x hx
        simp [h.2 x hx]
    · rw [if_neg hsign] at h
      rw [Bool.and_eq_true]
      refine ⟨by simp, ?_⟩
      rw [List.all_eq_true] at h ⊢
      intro x hx
      simp [h x hx]

lemma listGetD_lt {A : Type} (l : List A) (i : Nat) (d : A)
    (h : i < l.length) : l.getD i d = l[i] := by
  rw [List.getD_eq_getElem?_getD, List.getElem?_eq_getElem h]
  rfl

lemma robustColumn_roundtrip {col : List Cell} (h : robustColumn col = true) :
    ∀ c ∈ col,
      parseFieldAs (inferKind (col.map serializeCell)) (serializeCell c) = c := by
  intro c hc
  unfold robustColumn at h
  rw [Bool.or_eq_true] at h
  rcases h with hint | htext
  · rw [List.all_eq_true] at hint
    have hkind : inferKind (col.map serializeCell) = ColKind.intK := by
      unfold inferKind
      rw [if_pos]
      rw [List.all_eq_true]
      intro s hsm
      obtain ⟨c2, hc2, rfl⟩ := List.mem_map.mp hsm
      have hi := hint c2 hc2
      cases c2 with
      | intv n =>
        show isIntLit (serializeCell (Cell.intv n)).data = true
        exact isIntLit_renderInt n
      | nan => exact Bool.noConfusion hi
      | floatv n => exact Bool.noConfusion hi
      | str s => exact Bool.noConfusion hi
    rw [hkind]
    have hi := hint c hc
    cases c with
    | intv n =>
      show Cell.intv (parseIntLit (serializeCell (Cell.intv n)).data) =
        Cell.intv n
      rw [show (serializeCell (Cell.intv n)).data = renderInt n from rfl,
          parseIntLit_renderInt]
    | nan => exact Bool.noConfusion hi
    | floatv n => exact Bool.noConfusion hi
    | str s => exact Bool.noConfusion hi
  · rw [List.all_eq_true] at htext
    by_cases hs : ∃ s, Cell.str s ∈ col
    · obtain ⟨s0, hs0⟩ := hs
      have hr0 : (!(naTokens.contains s0) && !(numericLike s0.data) &&
          !(coercedTokens.contains (pyStrip s0))) = true := htext _ hs0
      rw [Bool.and_eq_true, Bool.and_eq_true] at hr0
      obtain ⟨⟨hna0, hnum0⟩, _⟩ := hr0
      rw [Bool.not_eq_true'] at hna0 hnum0
      have hnotint : ¬ ((col.map serializeCell).all
          (fun s => isIntLit s.data) = true) := by
        intro hall
        rw [List.all_eq_true] at hall
        have h0 : isIntLit s0.data = true :=
          hall (serializeCell (Cell.str s0)) (List.mem_map_of_mem _ hs0)
        rw [isIntLit_numericLike h0] at hnum0
        exact Bool.noConfusion hnum0
      have hnotintna : ¬ ((col.map serializeCell).all
          (fun s => isIntLit s.data || naTokens.contains s) = true) := by
        intro hall
        rw [List.all_eq_true] at hall
        have h0 := hall (serializeCell (Cell.str s0)) (List.mem_map_of_mem _ hs0)
        rw [Bool.or_eq_true] at h0
        rcases h0 with h0 | h0
        · have h02 : isIntLit s0.data = true := h0
          rw [isIntLit_numericLike h02] at hnum0
          exact Bool.noConfusion hnum0
        · rw [show serializeCell (Cell.str s0) = s0 from rfl, hna0] at h0
          exact Bool.noConfusion h0
      have hkind : inferKind (col.map serializeCell) = ColKind.objK := by
        unfold inferKind
        rw [if_neg hnotint, if_neg hnotintna]
      rw [hkind]
      have hcc := htext c hc
      cases c with
      | nan =>
        show (if naTokens.contains (serializeCell Cell.nan) then Cell.nan
              else Cell.str (serializeCell Cell.nan)) = Cell.nan
        rw [if_pos (by decide)]
      | str s =>
        have hcs : (!(naTokens.contains s) && !(numericLike s.data) &&
            !(coercedTokens.contains (pyStrip s))) = true := hcc
        rw [Bool.and_eq_true, Bool.and_eq_true] at hcs
        obtain ⟨⟨hna, _⟩, _⟩ := hcs
        rw [Bool.not_eq_true'] at hna
        show (if naTokens.contains (serializeCell (Cell.str s)) then Cell.nan
              else Cell.str (serializeCell (Cell.str s))) = Cell.str s
        rw [show serializeCell (Cell.str s) = s from rfl,
            if_neg (by simpa using hna)]
      | intv n => exact Bool.noConfusion hcc
      | floatv n => exact Bool.noConfusion hcc
    · have hallnan : ∀ c2 ∈ col, c2 = Cell.nan := by
        intro c2 hc2
        have h2 := htext c2 hc2
        cases c2 with
        | nan => rfl
        | str s => exact absurd ⟨s, hc2⟩ hs
        | intv n => exact Bool.noConfusion h2
        | floatv n => exact Bool.noConfusion h2
      have hcn := hallnan c hc
      subst hcn
      have hnotint : ¬ ((col.map serializeCell).all
          (fun s => isIntLit s.data) = true) := by
        intro hall
        rw [List.all_eq_true] at hall
        have h0 :=
          hall (serializeCell Cell.nan) (List.mem_map_of_mem _ hc)
        exact absurd h0 (by decide)
      have hkind : inferKind (col.map serializeCell) = ColKind.floatK := by
        unfold inferKind
        rw [if_neg hnotint, if_pos]
        rw [List.all_eq_true]
        intro s hsm
        obtain ⟨c2, hc2, rfl⟩ := List.mem_map.mp hsm
        rw [hallnan c2 hc2]
        decide
      rw [hkind]
      show (if naTokens.contains (serializeCell Cell.nan) then Cell.nan
            else Cell.floatv (parseIntLit (serializeCell Cell.nan).data)) =
        Cell.nan
      rw [if_pos (by decide)]

lemma columnFields_serialize {header : List String} {rows : List (List Cell)}
    (hw : ∀ row ∈ rows, row.length = header.length) {j : Nat}
    (hj : j < header.length) :
    columnFields
        { header := header,
          records := rows.map (fun r => r.map serializeCell) } j =
      (columnOf rows j).map serializeCell := by
  unfold columnFields columnOf
  simp only
  rw [List.map_map, List.map_map]
  apply List.map_congr_left
  intro r hr
  have hir : j < r.length := by rw [hw r hr]; exact hj
  simp only [Function.comp]
  rw [listGetD_lt _ j _ (by rw [List.length_map]; exact hir),
      listGetD_lt _ j _ hir]
  simp

lemma parseRecord_serialize {header : List String} {rows : List (List Cell)}
    (hw : ∀ row ∈ rows, row.length = header.length)
    (hc : ∀ j, j < header.length → robustColumn (columnOf rows j) = true)
    {row : List Cell} (hrow : row ∈ rows) :
    parseRecord
        { header := header,
          records := rows.map (fun r => r.map serializeCell) }
        (row.map serializeCell) = row := by
  unfold parseRecord
  apply List.ext_getElem
  · simp [hw row hrow]
  · intro i h1 h2
    have hib : i < header.length := by
      rw [← hw row hrow]; exact h2
    rw [List.getElem_map, List.getElem_range]
    rw [columnFields_serialize hw hib]
    rw [listGetD_lt _ i _ (by rw [List.length_map]; exact h2),
        List.getElem_map]
    have hmem : row.getD i Cell.nan ∈ columnOf rows i :=
      List.mem_map_of_mem _ hrow
    rw [listGetD_lt row i Cell.nan h2] at hmem
    exact robustColumn_roundtrip (hc i hib) _ hmem

/-- C9 counterexample to the claim as stated: export of a one-row table whose
review text is `"7"` does not round-trip — `to_csv` writes the field as `7`,
the reloaded review column is all-integer, and type inference reads it back
as the integer `7`, so the reloaded rows are not identical to the exported
subset. -/
theorem export_roundtrip_cex :
    read_csv (to_csv
        { header := stdColumns,
          rows := [[Cell.str "t0", Cell.intv 5, Cell.str "7",
                    Cell.str "a", Cell.str "s", Cell.str "c"]] }) =
      some { header := stdColumns,
             rows := [[Cell.str "t0", Cell.intv 5, Cell.intv 7,
                       Cell.str "a", Cell.str "s", Cell.str "c"]] } ∧
    some (DataFrame.mk stdColumns
        [[Cell.str "t0", Cell.intv 5, Cell.intv 7,
          Cell.str "a", Cell.str "s", Cell.str "c"]]) ≠
      some (DataFrame.mk stdColumns
        [[Cell.str "t0", Cell.intv 5, Cell.str "7",
          Cell.str "a", Cell.str "s", Cell.str "c"]]) := by
  constructor
  · decide
  · decide

/-- C9 amended: a filtered subset serialized with `to_csv` and re-loaded
through the store yields rows identical to the subset, provided the table is
rectangular and every column is robust under the reader's per-column dtype
inference: either a pure integer column, or a text column of missing values
and strings the reader keeps as text (non-NA, not numeric-looking, not
boolean/infinity tokens). Columns outside these classes come back changed —
a numeric-string review column reloads as integers (see the counterexample),
a column mixing strings and integers reloads as all-strings, and an integer
column with missing entries reloads as floats. -/
theorem export_roundtrip_amended (df : DataFrame)
    (hw : ∀ row ∈ df.rows, row.length = df.header.length)
    (hc : ∀ j, j < df.header.length →
      robustColumn (columnOf df.rows j) = true) :
    read_csv (to_csv df) = some df := by
  obtain ⟨header, rows⟩ := df
  simp only [to_csv] at *
  unfold read_csv
  rw [if_pos]
  · congr 1
    simp only
    congr 1
    rw [List.map_map]
    have hrow : ∀ row ∈ rows,
        (parseRecord
            { header := header,
              records := rows.map (fun r => r.map serializeCell) } ∘
          fun r => r.map serializeCell) row = row := by
      intro row hr
      exact parseRecord_serialize hw hc hr
    rw [List.map_congr_left hrow]
    exact List.map_id rows
  · simp only
    rw [List.all_eq_true]
    intro rec hrec
    obtain ⟨row, hmem, hmap⟩ := List.mem_map.mp hrec
    rw [← hmap]
    simp [List.length_map, hw row hmem]

/-- Witness for C9 (amended): a concrete two-row table with robust columns
round-trips exactly. -/
theorem export_roundtrip_amended_witness :
    (∀ row ∈ (DataFrame.mk stdColumns
        [[Cell.str "t0", Cell.intv 5, Cell.str "Great food",
          Cell.str "Thanks", Cell.str "Great food", Cell.str "- Thank"],
         [Cell.str "t1", Cell.intv 1, Cell.str "Too slow",
          Cell.str "Thanks", Cell.nan, Cell.str "- Investigate"]]).rows,
      row.length = stdColumns.length) ∧
    (∀ j, j < stdColumns.length →
      robustColumn (columnOf (DataFrame.mk stdColumns
        [[Cell.str "t0", Cell.intv 5, Cell.str "Great food",
          Cell.str "Thanks", Cell.str "Great food", Cell.str "- Thank"],
         [Cell.str "t1", Cell.intv 1, Cell.str "Too slow",
          Cell.str "Thanks", Cell.nan, Cell.str "- Investigate"]]).rows j) =
        true) ∧
    read_csv (to_csv (DataFrame.mk stdColumns
        [[Cell.str "t0", Cell.intv 5, Cell.str "Great food",
          Cell.str "Thanks", Cell.str "Great food", Cell.str "- Thank"],
         [Cell.str "t1", Cell.intv 1, Cell.str "Too slow",
          Cell.str "Thanks", Cell.nan, Cell.str "- Investigate"]])) =
      some (DataFrame.mk stdColumns
        [[Cell.str "t0", Cell.intv 5, Cell.str "Great food",
          Cell.str "Thanks", Cell.str "Great food", Cell.str "- Thank"],
         [Cell.str "t1", Cell.intv 1, Cell.str "Too slow",
          Cell.str "Thanks", Cell.nan, Cell.str "- Investigate"]]) :=
  ⟨by decide, by decide,
   export_roundtrip_amended
     (DataFrame.mk stdColumns
       [[Cell.str "t0", Cell.intv 5, Cell.str "Great food",
         Cell.str "Thanks", Cell.str "Great food", Cell.str "- Thank"],
        [Cell.str "t1", Cell.intv 1, Cell.str "Too slow",
         Cell.str "Thanks", Cell.nan, Cell.str "- Investigate"]])
     (by decide) (by decide)⟩
